import Mathlib

/-!  Verification of the conda shell activation engine (src/conda/activate.py).

The embedding models the POSIX code paths of the source (`on_win = False`):
`path_conversion` is `path_identity`, the path-list separator is a colon and
the directory separator is a slash, and `_get_path_dirs2` yields the single
entry `<prefix>/bin`.  Python `os.path.abspath` (used by `paths_equal` and
`expand`) is modelled as the identity on the already-absolute, normalized
strings that occur in ambient snapshots, so `paths_equal` becomes string
equality.  Python exceptions are modelled with `Except`/`Option` results.
External collaborators that live outside the source file (the file system,
`context`, `locate_prefix_by_name`, `os.environ`) enter as explicit fields of
a `Host` snapshot record.  -/

-- ======== search-path editor (activate.py lines 396-460) ========

/-- Python `paths_equal` on POSIX: `abspath(path1) == abspath(path2)`, with
`abspath` modelled as the identity. -/
def paths_equal (path1 path2 : String) : Bool := path1 == path2

/-- `_Activator._get_path_dirs2` on POSIX: `yield self.sep.join((prefix, 'bin'))`. -/
def _get_path_dirs2 (pfx : String) : List String := [pfx ++ "/" ++ "bin"]

/-- The inner `index_of_path` helper of `_replace_prefix_in_path`: index of the
first entry that `paths_equal` the test path, else `None`. -/
def index_of_path : List String → String → Option Nat
  | [], _ => none
  | path :: rest, test_path =>
      if paths_equal path test_path then some 0
      else (index_of_path rest test_path).map (· + 1)

/-- The final insertion step of `_replace_prefix_in_path`:
`path_list[first_idx:first_idx] = list(self._get_path_dirs2(new_prefix))`
when the new prefix is not `None`, else no change. -/
def _insert_dirs_at (new_pfx : Option String) (idx : Nat) (path_list : List String) :
    List String :=
  match new_pfx with
  | none => path_list
  | some np => path_list.take idx ++ _get_path_dirs2 np ++ path_list.drop idx

/-- `_Activator._replace_prefix_in_path` with an explicit starting path list.
`none` models a failing `assert last_idx is not None` (an `AssertionError`).
Python `del path_list[first_idx:last_idx + 1]` is `take first_idx ++
drop (last_idx + 1)`. -/
def _replace_prefix_in_path (old_pfx new_pfx : Option String) (path_list : List String) :
    Option (List String) :=
  match old_pfx with
  | none => some (_insert_dirs_at new_pfx 0 path_list)
  | some op =>
    let pd := _get_path_dirs2 op
    match index_of_path path_list (pd.headD "") with
    | none => some (_insert_dirs_at new_pfx 0 path_list)
    | some first_idx =>
      match index_of_path path_list (pd.getLastD "") with
      | none => none
      | some last_idx =>
          some (_insert_dirs_at new_pfx first_idx
            (path_list.take first_idx ++ path_list.drop (last_idx + 1)))

/-- `_Activator._remove_prefix_from_path`. -/
def _remove_prefix_from_path (pfx : String) (path_list : List String) :
    Option (List String) :=
  _replace_prefix_in_path (some pfx) none path_list

/-- `_Activator._add_prefix_to_path` with an explicit starting path list:
`path_list[0:0] = list(self._get_path_dirs2(prefix))`. -/
def _add_prefix_to_path (pfx : String) (starting_path_dirs : List String) : List String :=
  _get_path_dirs2 pfx ++ starting_path_dirs

-- ======== Python string primitives used by the state machine ========

/-- ASCII whitespace as stripped by Python `str.strip()`. -/
def isPySpace (c : Char) : Bool :=
  c == ' ' || c == '\t' || c == '\n' || c == '\x0d' || c == '\x0b' || c == '\x0c'

/-- Python `str.strip()` restricted to ASCII whitespace. -/
def pyStrip (s : String) : String :=
  String.mk (((s.data.dropWhile isPySpace).reverse.dropWhile isPySpace).reverse)

/-- Decimal value of a digit list, most significant first. -/
def digitsVal : List Char → Nat → Nat
  | [], acc => acc
  | c :: cs, acc => digitsVal cs (acc * 10 + (c.toNat - 48))

/-- A non-empty all-digit char list as a number, else `none`. -/
def pyDigits (cs : List Char) : Option Nat :=
  if cs ≠ [] ∧ cs.all Char.isDigit then some (digitsVal cs 0) else none

/-- Python `int(s)` for a decimal string with an optional sign, `none` for a
`ValueError`.  (Underscore separators and non-ASCII digits are not modelled.) -/
def pyIntParse (s : String) : Option Int :=
  match (pyStrip s).data with
  | [] => none
  | c :: rest =>
      if c == '-' then (pyDigits rest).map (fun n => -(n : Int))
      else if c == '+' then (pyDigits rest).map (fun n => (n : Int))
      else (pyDigits (c :: rest)).map (fun n => (n : Int))

/-- Python `str.split(sep)` for a one-character separator, on char lists:
always at least one (possibly empty) field. -/
def splitOnChar (sep : Char) : List Char → List (List Char)
  | [] => [[]]
  | c :: rest =>
      let r := splitOnChar sep rest
      if c == sep then [] :: r
      else
        match r with
        | [] => [[c]]
        | h :: t => (c :: h) :: t

/-- Python `str.split(sep)` for a one-character separator. -/
def pySplitChar (sep : Char) (s : String) : List String :=
  (splitOnChar sep s.data).map String.mk

/-- Whether a string contains a character. -/
def strContains (s : String) (c : Char) : Bool := s.data.contains c

/-- Whether a string starts with a character. -/
def startsWithChar (s : String) (c : Char) : Bool :=
  match s.data with
  | [] => false
  | d :: _ => d == c

/-- Whether a string ends with a character. -/
def endsWithChar (s : String) (c : Char) : Bool :=
  match s.data.getLast? with
  | none => false
  | some d => d == c

/-- `sep.join(l)`. -/
def joinWith (sep : String) : List String → String
  | [] => ""
  | [x] => x
  | x :: xs => x ++ sep ++ joinWith sep xs

/-- Python `os.path.basename` on POSIX: the part after the last slash. -/
def posixBasename (p : String) : String :=
  (pySplitChar '/' p).getLastD ""

/-- Python `os.path.dirname` on POSIX: everything up to the last slash, with
trailing slashes stripped unless the head consists only of slashes. -/
def posixDirname (p : String) : String :=
  let head := (p.data.reverse.dropWhile (fun c => c != '/')).reverse
  if head.isEmpty then ""
  else if head.all (fun c => c == '/') then String.mk head
  else String.mk ((head.reverse.dropWhile (fun c => c == '/')).reverse)

/-- Python `os.path.join(a, b)` on POSIX for a single relative component. -/
def posixJoin (a b : String) : String :=
  if startsWithChar b '/' then b
  else if a = "" then b
  else if endsWithChar a '/' then a ++ b
  else a ++ "/" ++ b

/-- POSIX `pathsep_join`: `':'.join`. -/
def pathsep_join (l : List String) : String := joinWith ":" l

-- ======== ambient snapshot ========

/-- Errors raised by the engine (Python exception classes). -/
inductive CondaErr where
  | environmentLocationNotFound (p : String)
  | environmentNameNotFound (n : String)
  | valueError
  | typeError
  | keyError (k : String)
  | assertionError
  deriving DecidableEq

/-- The instruction set returned by the build methods.  Python dicts are
association lists in insertion order with distinct keys; heterogeneous
values (the `CONDA_SHLVL` int) are stored rendered with `str`. -/
structure InstructionSet where
  unset_vars : List String
  set_vars : List (String × String)
  export_vars : List (String × String)
  deactivate_scripts : List String
  activate_scripts : List String
  deriving DecidableEq

/-- The empty instruction set returned by the no-op branches. -/
def emptyInstructionSet : InstructionSet :=
  { unset_vars := [], set_vars := [], export_vars := [],
    deactivate_scripts := [], activate_scripts := [] }

/-- One immutable ambient snapshot: the process environment plus the external
collaborators the engine consults (`context` configuration, the file system,
and the out-of-file name resolver). -/
structure Host where
  /-- `self.environ`, a copy of `os.environ`. -/
  environ : List (String × String)
  /-- `os.path.isdir`. -/
  isdir : String → Bool
  /-- `context.root_prefix`. -/
  root_pfx : String
  /-- `context.conda_exe` after `path_conversion`. -/
  conda_exe : String
  /-- `sys.executable` after `path_conversion`. -/
  sys_executable : String
  /-- `context.changeps1`. -/
  changeps1 : Bool
  /-- `context.env_prompt.format(default_env=..., prefix=..., name=...)`. -/
  env_prompt : String → String → String → String
  /-- `expand = abspath(expanduser(expandvars(path)))`. -/
  expand : String → String
  /-- Modelled from the spec: `locate_prefix_by_name` is imported from
  `conda.base.context` (not under src/); the spec says targets without a path
  separator are resolved "by name lookup otherwise". -/
  locate_prefix_by_name : String → Except CondaErr String
  /-- Raw `glob(join(prefix, 'etc', 'conda', 'activate.d', '*.sh'))` result. -/
  glob_activate_d : String → List String
  /-- Raw `glob(join(prefix, 'etc', 'conda', 'deactivate.d', '*.sh'))` result. -/
  glob_deactivate_d : String → List String

/-- `self.environ.get(key)`. -/
def envGet (environ : List (String × String)) (key : String) : Option String :=
  (environ.find? (fun kv => kv.1 == key)).map (fun kv => kv.2)

/-- `int(self.environ.get('CONDA_SHLVL', '').strip() or 0)`. -/
def getCondaShlvl (environ : List (String × String)) : Except CondaErr Int :=
  let s := pyStrip ((envGet environ "CONDA_SHLVL").getD "")
  if s = "" then .ok 0
  else
    match pyIntParse s with
    | some n => .ok n
    | none => .error .valueError

-- ======== state machine helpers (activate.py lines 376-493) ========

/-- `_Activator._get_starting_path_list` on POSIX:
`self.environ['PATH'].split(os.pathsep)`; a missing key is a `KeyError`. -/
def _get_starting_path_list (host : Host) : Except CondaErr (List String) :=
  match envGet host.environ "PATH" with
  | none => .error (.keyError "PATH")
  | some p => .ok (pySplitChar ':' p)

/-- Ascending lexicographic sort, the extensional behaviour of Python
`sorted` on strings. -/
def sortedStrings (l : List String) : List String :=
  List.insertionSort (· ≤ ·) l

/-- `_Activator._get_activate_scripts`: sorted glob of `activate.d`. -/
def _get_activate_scripts (host : Host) (pfx : String) : List String :=
  sortedStrings (host.glob_activate_d pfx)

/-- `_Activator._get_deactivate_scripts`: glob of `deactivate.d` sorted with
`reverse=True` (descending). -/
def _get_deactivate_scripts (host : Host) (pfx : String) : List String :=
  (sortedStrings (host.glob_deactivate_d pfx)).reverse

/-- `_Activator._default_env`. -/
def _default_env (host : Host) (pfx : String) : String :=
  if paths_equal pfx host.root_pfx then "base"
  else if posixBasename (posixDirname pfx) = "envs" then posixBasename pfx else pfx

/-- `_Activator._prompt_modifier`. -/
def _prompt_modifier (host : Host) (pfx conda_default_env : String) : String :=
  if host.changeps1 then host.env_prompt conda_default_env pfx (posixBasename pfx)
  else ""

/-- The single-quote escape `'"'"'` used by `PosixActivator._update_prompt`,
built from characters. -/
def posixQuoteEscape : String :=
  String.mk ['\'', '\x22', '\'', '\x22', '\'']

/-- A one-character string holding a single quote. -/
def squoteStr : String := String.mk ['\'']

/-- `PosixActivator._update_prompt`: strip the current prompt modifier from
`PS1`, escape single quotes, and set `PS1` to the new modifier plus the rest.
Returns the `set_vars` additions. -/
def _update_prompt (host : Host) (conda_prompt_modifier : String) :
    List (String × String) :=
  let ps1 := (envGet host.environ "PS1").getD ""
  let ps1 :=
    match envGet host.environ "CONDA_PROMPT_MODIFIER" with
    | some current => if current ≠ "" then ps1.replace current "" else ps1
    | none => ps1
  let ps1 := ps1.replace squoteStr posixQuoteEscape
  [("PS1", conda_prompt_modifier ++ ps1)]

/-- Modelled from the spec: `ROOT_ENV_NAME` is imported from
`conda.base.context` (not under src/); the spec calls it "a reserved alias
for the base/root environment" and the parser defaults to the literal
`'base'`. -/
def ROOT_ENV_NAME : String := "base"

/-- The target-resolution prelude of `_Activator._build_activate_stack`
(lines 190-198): literal path when the target contains a slash or backslash
(with the `conda-meta` marker check), the root prefix for the reserved
aliases, name lookup otherwise. -/
def resolveTarget (host : Host) (env_name_or_pfx : String) : Except CondaErr String :=
  if strContains env_name_or_pfx '/' || strContains env_name_or_pfx '\\' then
    let pfx := host.expand env_name_or_pfx
    if host.isdir (posixJoin pfx "conda-meta") then .ok pfx
    else .error (.environmentLocationNotFound pfx)
  else if env_name_or_pfx = ROOT_ENV_NAME ∨ env_name_or_pfx = "root" then
    .ok host.root_pfx
  else host.locate_prefix_by_name env_name_or_pfx

/-- `str(value)` for the `CONDA_PREFIX_%d` export whose value may be `None`. -/
def optValueStr (o : Option String) : String :=
  match o with
  | none => "None"
  | some s => s

-- ======== build_reactivate (activate.py lines 343-374) ========

/-- `_Activator.build_reactivate`. -/
def build_reactivate (host : Host) : Except CondaErr InstructionSet :=
  match getCondaShlvl host.environ with
  | .error e => .error e
  | .ok conda_shlvl =>
    match envGet host.environ "CONDA_PREFIX" with
    | none => .ok emptyInstructionSet
    | some conda_pfx =>
      if conda_pfx = "" ∨ conda_shlvl < 1 then .ok emptyInstructionSet
      else
        let conda_default_env :=
          (envGet host.environ "CONDA_DEFAULT_ENV").getD (_default_env host conda_pfx)
        match _get_starting_path_list host with
        | .error e => .error e
        | .ok spl =>
          match _replace_prefix_in_path (some conda_pfx) (some conda_pfx) spl with
          | none => .error .assertionError
          | some repl =>
            let new_path := pathsep_join repl
            let conda_prompt_modifier := _prompt_modifier host conda_pfx conda_default_env
            let set_vars :=
              if host.changeps1 then _update_prompt host conda_prompt_modifier else []
            .ok { unset_vars := [],
                  set_vars := set_vars,
                  export_vars :=
                    [("PATH", new_path),
                     ("CONDA_SHLVL", toString conda_shlvl),
                     ("CONDA_PROMPT_MODIFIER",
                       _prompt_modifier host conda_pfx conda_default_env)],
                  deactivate_scripts := _get_deactivate_scripts host conda_pfx,
                  activate_scripts := _get_activate_scripts host conda_pfx }

-- ======== build_deactivate (activate.py lines 271-341) ========

/-- `_Activator.build_deactivate`. -/
def build_deactivate (host : Host) : Except CondaErr InstructionSet :=
  match getCondaShlvl host.environ with
  | .error e => .error e
  | .ok old_conda_shlvl =>
    match envGet host.environ "CONDA_PREFIX" with
    | none => .ok emptyInstructionSet
    | some ocp =>
      if ocp = "" ∨ old_conda_shlvl < 1 then .ok emptyInstructionSet
      else
        let deactivate_scripts := _get_deactivate_scripts host ocp
        let new_conda_shlvl := old_conda_shlvl - 1
        if old_conda_shlvl = 1 then
          match _get_starting_path_list host with
          | .error e => .error e
          | .ok spl =>
            match _remove_prefix_from_path ocp spl with
            | none => .error .assertionError
            | some removed =>
              let new_path := pathsep_join removed
              let set_vars := if host.changeps1 then _update_prompt host "" else []
              .ok { unset_vars :=
                      ["CONDA_PREFIX", "CONDA_DEFAULT_ENV", "CONDA_PYTHON_EXE",
                       "CONDA_PROMPT_MODIFIER"],
                    set_vars := set_vars,
                    export_vars :=
                      [("PATH", new_path), ("CONDA_SHLVL", toString new_conda_shlvl)],
                    deactivate_scripts := deactivate_scripts,
                    activate_scripts := [] }
        else if old_conda_shlvl > 1 then
          match envGet host.environ ("CONDA_PREFIX_" ++ toString new_conda_shlvl) with
          | none =>
            -- `new_prefix is None`: `paths_equal(None, ...)` in `_default_env`
            -- raises a `TypeError` inside `abspath`.
            .error .typeError
          | some new_pfx =>
            let conda_default_env := _default_env host new_pfx
            let conda_prompt_modifier := _prompt_modifier host new_pfx conda_default_env
            let old_pfx_stacked :=
              (envGet host.environ ("CONDA_STACKED_" ++ toString old_conda_shlvl)).isSome
            match _get_starting_path_list host with
            | .error e => .error e
            | .ok spl =>
              let pathAndUnset :=
                if old_pfx_stacked then
                  ((_remove_prefix_from_path ocp spl),
                   ["CONDA_PREFIX_" ++ toString new_conda_shlvl,
                    "CONDA_STACKED_" ++ toString old_conda_shlvl])
                else
                  ((_replace_prefix_in_path (some ocp) (some new_pfx) spl),
                   ["CONDA_PREFIX_" ++ toString new_conda_shlvl])
              match pathAndUnset.1 with
              | none => .error .assertionError
              | some pl =>
                let new_path := pathsep_join pl
                let set_vars :=
                  if host.changeps1 then _update_prompt host conda_prompt_modifier else []
                .ok { unset_vars := pathAndUnset.2,
                      set_vars := set_vars,
                      export_vars :=
                        [("PATH", new_path),
                         ("CONDA_SHLVL", toString new_conda_shlvl),
                         ("CONDA_PREFIX", new_pfx),
                         ("CONDA_DEFAULT_ENV", conda_default_env),
                         ("CONDA_PROMPT_MODIFIER", conda_prompt_modifier)],
                      deactivate_scripts := deactivate_scripts,
                      activate_scripts := _get_activate_scripts host new_pfx }
        else .error .assertionError  -- `assert old_conda_shlvl > 1`

-- ======== build_activate / build_stack (activate.py lines 183-269) ========

/-- `_Activator._build_activate_stack`. -/
def _build_activate_stack (host : Host) (env_name_or_pfx : String) (stack : Bool) :
    Except CondaErr InstructionSet :=
  match resolveTarget host env_name_or_pfx with
  | .error e => .error e
  | .ok pfx =>
    match getCondaShlvl host.environ with
    | .error e => .error e
    | .ok old_conda_shlvl =>
      let new_conda_shlvl := old_conda_shlvl + 1
      let old_conda_pfx := envGet host.environ "CONDA_PREFIX"
      if old_conda_pfx = some pfx ∧ old_conda_shlvl > 0 then
        build_reactivate host
      else
        let activate_scripts := _get_activate_scripts host pfx
        let conda_default_env := _default_env host pfx
        let conda_prompt_modifier := _prompt_modifier host pfx conda_default_env
        let set_vars :=
          if host.changeps1 then _update_prompt host conda_prompt_modifier else []
        if old_conda_shlvl = 0 then
          match _get_starting_path_list host with
          | .error e => .error e
          | .ok spl =>
            let new_path := pathsep_join (_add_prefix_to_path pfx spl)
            .ok { unset_vars := [],
                  set_vars := set_vars,
                  export_vars :=
                    [("CONDA_PYTHON_EXE", host.sys_executable),
                     ("CONDA_EXE", host.conda_exe),
                     ("PATH", new_path),
                     ("CONDA_PREFIX", pfx),
                     ("CONDA_SHLVL", toString new_conda_shlvl),
                     ("CONDA_DEFAULT_ENV", conda_default_env),
                     ("CONDA_PROMPT_MODIFIER", conda_prompt_modifier)],
                  deactivate_scripts := [],
                  activate_scripts := activate_scripts }
        else if envGet host.environ
            ("CONDA_PREFIX_" ++ toString (old_conda_shlvl - 1)) = some pfx then
          -- stepping back down to the previous environment
          build_deactivate host
        else if stack then
          match _get_starting_path_list host with
          | .error e => .error e
          | .ok spl =>
            let new_path := pathsep_join (_add_prefix_to_path pfx spl)
            .ok { unset_vars := [],
                  set_vars := set_vars,
                  export_vars :=
                    [("PATH", new_path),
                     ("CONDA_PREFIX", pfx),
                     ("CONDA_PREFIX_" ++ toString old_conda_shlvl, optValueStr old_conda_pfx),
                     ("CONDA_SHLVL", toString new_conda_shlvl),
                     ("CONDA_DEFAULT_ENV", conda_default_env),
                     ("CONDA_PROMPT_MODIFIER", conda_prompt_modifier),
                     ("CONDA_STACKED_" ++ toString new_conda_shlvl, "true")],
                  deactivate_scripts := [],
                  activate_scripts := activate_scripts }
        else
          match old_conda_pfx with
          | none =>
            -- `_get_deactivate_scripts(None)` raises a `TypeError` in `join`.
            .error .typeError
          | some ocp =>
            match _get_starting_path_list host with
            | .error e => .error e
            | .ok spl =>
              match _replace_prefix_in_path (some ocp) (some pfx) spl with
              | none => .error .assertionError
              | some repl =>
                let new_path := pathsep_join repl
                .ok { unset_vars := [],
                      set_vars := set_vars,
                      export_vars :=
                        [("PATH", new_path),
                         ("CONDA_PREFIX", pfx),
                         ("CONDA_PREFIX_" ++ toString old_conda_shlvl, ocp),
                         ("CONDA_SHLVL", toString new_conda_shlvl),
                         ("CONDA_DEFAULT_ENV", conda_default_env),
                         ("CONDA_PROMPT_MODIFIER", conda_prompt_modifier)],
                      deactivate_scripts := _get_deactivate_scripts host ocp,
                      activate_scripts := activate_scripts }

/-- `_Activator.build_activate`. -/
def build_activate (host : Host) (env_name_or_pfx : String) :
    Except CondaErr InstructionSet :=
  _build_activate_stack host env_name_or_pfx false

/-- `_Activator.build_stack`. -/
def build_stack (host : Host) (env_name_or_pfx : String) :
    Except CondaErr InstructionSet :=
  _build_activate_stack host env_name_or_pfx true

/-- `True` exactly on successful results. -/
def exceptIsOk (r : Except CondaErr InstructionSet) : Bool :=
  match r with
  | .ok _ => true
  | .error _ => false

-- ======== command renderer (activate.py lines 167-181) ========

/-- The per-shell template strings (`run_script_tmpl % script`, etc.) as
functions. -/
structure ShellTemplates where
  run_script_tmpl : String → String
  unset_var_tmpl : String → String
  set_var_tmpl : String → String → String
  export_var_tmpl : String → String → String

/-- The order Python `sorted` uses on `dict.items()`: lexicographic on the
(key, value) pair. -/
def pairLe (a b : String × String) : Prop :=
  a.1 < b.1 ∨ (a.1 = b.1 ∧ a.2 ≤ b.2)

instance : DecidableRel pairLe := fun a b => by
  unfold pairLe; infer_instance

instance : IsTrans (String × String) pairLe where
  trans a b c hab hbc := by
    rcases hab with h1 | ⟨h1, h1v⟩ <;> rcases hbc with h2 | ⟨h2, h2v⟩
    · exact Or.inl (lt_trans h1 h2)
    · exact Or.inl (h2 ▸ h1)
    · exact Or.inl (h1 ▸ h2)
    · exact Or.inr ⟨h1.trans h2, le_trans h1v h2v⟩

instance : IsAntisymm (String × String) pairLe where
  antisymm a b hab hba := by
    rcases hab with h1 | ⟨h1, h1v⟩ <;> rcases hba with h2 | ⟨h2, h2v⟩
    · exact absurd (lt_trans h1 h2) (lt_irrefl _)
    · exact absurd h1 (h2 ▸ lt_irrefl _)
    · exact absurd h2 (h1 ▸ lt_irrefl _)
    · exact Prod.ext h1 (le_antisymm h1v h2v)

instance : IsTotal (String × String) pairLe where
  total a b := by
    rcases lt_trichotomy a.1 b.1 with h | h | h
    · exact Or.inl (Or.inl h)
    · rcases le_total a.2 b.2 with hv | hv
      · exact Or.inl (Or.inr ⟨h, hv⟩)
      · exact Or.inr (Or.inr ⟨h.symm, hv⟩)
    · exact Or.inr (Or.inl h)

/-- Sorted key-value pairs: the extensional behaviour of
`sorted(iteritems(d))`. -/
def sortedPairs (l : List (String × String)) : List (String × String) :=
  List.insertionSort pairLe l

/-- `_Activator._yield_commands`: teardown scripts, then unset / local-set /
export commands each sorted, then setup scripts. -/
def yieldCommands (t : ShellTemplates) (d : InstructionSet) : List String :=
  d.deactivate_scripts.map t.run_script_tmpl
    ++ (sortedStrings d.unset_vars).map t.unset_var_tmpl
    ++ (sortedPairs d.set_vars).map (fun kv => t.set_var_tmpl kv.1 kv.2)
    ++ (sortedPairs d.export_vars).map (fun kv => t.export_var_tmpl kv.1 kv.2)
    ++ d.activate_scripts.map t.run_script_tmpl

/-- The `PosixActivator` template strings (`__init__`, activate.py lines
605-608), as functions: `run_script_tmpl % script` and friends. -/
def tmplPosix : ShellTemplates :=
  { run_script_tmpl := fun s => "\\. \x22" ++ s ++ "\x22",
    unset_var_tmpl := fun k => "\\unset " ++ k,
    set_var_tmpl := fun k v => k ++ "=" ++ squoteStr ++ v ++ squoteStr,
    export_var_tmpl := fun k v => "\\export " ++ k ++ "=" ++ squoteStr ++ v ++ squoteStr }

-- ======== argument parsing (activate.py lines 115-165) ========

/-- The parsed command (`self.command` plus the activate-specific state). -/
inductive ParsedCommand where
  | activateCmd (stack : Bool) (env : String)
  | deactivateCmd
  | reactivateCmd
  | hookCmd
  deriving DecidableEq

/-- Errors and non-execution outcomes of `_parse_and_set_args`. -/
inductive ParseErr where
  | argumentError (msg : String)
  | helpShown (cmd : String)
  | keyErrorHelp
  | indexError
  deriving DecidableEq

/-- `help_flags = ('-h', '--help', '/?')`. -/
def help_flags : List String := ["-h", "--help", "/?"]

/-- `_Activator._parse_and_set_args`. -/
def parseAndSetArgs (arguments : Option (List String)) : Except ParseErr ParsedCommand :=
  match arguments with
  | none => .error (.argumentError "command must be given")
  | some [] => .error .indexError  -- `arguments[0]` on an empty tuple
  | some (command :: args) =>
    let non_help_args := args.filter (fun a => !(help_flags.contains a))
    let help_requested := args.length ≠ non_help_args.length
    let remainder_args := non_help_args.filter (fun a => a != "" && a != command)
    if command = "" then .error (.argumentError "command must be given")
    else if help_requested then
      if command ∈ ["activate", "deactivate", "hook", "reactivate"] then
        .error (.helpShown command)
      else .error .keyErrorHelp  -- `help_classes[command]` on an unknown command
    else if command ∉ ["activate", "deactivate", "reactivate", "hook"] then
      .error (.argumentError "invalid command")
    else if command = "activate" then
      let stack := remainder_args.contains "--stack"
      let remainder_args :=
        if stack then remainder_args.erase "--stack" else remainder_args
      if remainder_args.length > 1 then
        .error (.argumentError "does not accept more than one argument")
      else
        let env :=
          match remainder_args with
          | [] => "base"
          | e :: _ => if e = "" then "base" else e
        .ok (.activateCmd stack env)
    else if remainder_args ≠ [] then
      .error (.argumentError "does not accept arguments")
    else if command = "deactivate" then .ok .deactivateCmd
    else if command = "reactivate" then .ok .reactivateCmd
    else .ok .hookCmd

-- ======== concrete ambient snapshots used by witnesses ========

/-- An ambient snapshot with one active environment at level 1. -/
def hostLvl1 : Host :=
  { environ := [("CONDA_PREFIX", "/envs/a"), ("CONDA_SHLVL", "1"),
                ("PATH", "/envs/a/bin:/usr/bin")],
    isdir := fun _ => true,
    root_pfx := "/opt/conda",
    conda_exe := "/opt/conda/bin/conda",
    sys_executable := "/opt/conda/bin/python",
    changeps1 := false,
    env_prompt := fun _ _ _ => "",
    expand := fun p => p,
    locate_prefix_by_name := fun n => .error (.environmentNameNotFound n),
    glob_activate_d := fun _ => ["/envs/a/etc/conda/activate.d/z.sh",
                                 "/envs/a/etc/conda/activate.d/a.sh"],
    glob_deactivate_d := fun _ => ["/envs/a/etc/conda/deactivate.d/a.sh",
                                   "/envs/a/etc/conda/deactivate.d/z.sh"] }

/-- An ambient snapshot at level 0 whose file system has no `conda-meta`
marker anywhere. -/
def hostNoMeta : Host :=
  { environ := [("PATH", "/usr/bin")],
    isdir := fun _ => false,
    root_pfx := "/opt/conda",
    conda_exe := "/opt/conda/bin/conda",
    sys_executable := "/opt/conda/bin/python",
    changeps1 := false,
    env_prompt := fun _ _ _ => "",
    expand := fun p => p,
    locate_prefix_by_name := fun n => .error (.environmentNameNotFound n),
    glob_activate_d := fun _ => [],
    glob_deactivate_d := fun _ => [] }

/-- An ambient snapshot claiming level 3 but with no `CONDA_PREFIX`. -/
def hostNoCondaPfx : Host :=
  { environ := [("CONDA_SHLVL", "3"), ("PATH", "/usr/bin")],
    isdir := fun _ => true,
    root_pfx := "/opt/conda",
    conda_exe := "/opt/conda/bin/conda",
    sys_executable := "/opt/conda/bin/python",
    changeps1 := false,
    env_prompt := fun _ _ _ => "",
    expand := fun p => p,
    locate_prefix_by_name := fun n => .error (.environmentNameNotFound n),
    glob_activate_d := fun _ => [],
    glob_deactivate_d := fun _ => [] }

/-- An ambient snapshot with an unset `CONDA_SHLVL`. -/
def hostNoShlvl : Host :=
  { environ := [("CONDA_PREFIX", "/envs/a"), ("PATH", "/usr/bin")],
    isdir := fun _ => true,
    root_pfx := "/opt/conda",
    conda_exe := "/opt/conda/bin/conda",
    sys_executable := "/opt/conda/bin/python",
    changeps1 := false,
    env_prompt := fun _ _ _ => "",
    expand := fun p => p,
    locate_prefix_by_name := fun n => .error (.environmentNameNotFound n),
    glob_activate_d := fun _ => [],
    glob_deactivate_d := fun _ => [] }

/-- Decidable equality for `Except` results, used to evaluate the model on
concrete snapshots. -/
instance {ε α : Type} [DecidableEq ε] [DecidableEq α] : DecidableEq (Except ε α) :=
  fun x y =>
    match x, y with
    | .ok a, .ok b =>
        if h : a = b then isTrue (by rw [h])
        else isFalse (by intro hh; cases hh; exact h rfl)
    | .error a, .error b =>
        if h : a = b then isTrue (by rw [h])
        else isFalse (by intro hh; cases hh; exact h rfl)
    | .ok _, .error _ => isFalse (by intro hh; cases hh)
    | .error _, .ok _ => isFalse (by intro hh; cases hh)

-- ======== lemmas about the search-path editor ========

theorem paths_equal_self (x : String) : paths_equal x x = true := by
  simp [paths_equal]

theorem paths_equal_iff {a b : String} : paths_equal a b = true ↔ a = b := by
  simp [paths_equal]

theorem index_of_path_cons_self (x : String) (l : List String) :
    index_of_path (x :: l) x = some 0 := by
  simp [index_of_path, paths_equal_self]

theorem index_of_path_some_lt {l : List String} {t : String} {i : Nat}
    (h : index_of_path l t = some i) : i < l.length := by
  induction l generalizing i with
  | nil => simp [index_of_path] at h
  | cons p rest ih =>
    simp only [index_of_path] at h
    split at h
    · simp only [Option.some.injEq] at h
      simp [← h]
    · cases hr : index_of_path rest t with
      | none => rw [hr] at h; simp at h
      | some j =>
        rw [hr] at h
        simp only [Option.map_some', Option.some.injEq] at h
        have := ih hr
        simp only [List.length_cons]
        omega

theorem index_of_path_take {l : List String} {t : String} {i : Nat}
    (h : index_of_path l t = some i) :
    ∀ a ∈ l.take i, paths_equal a t = false := by
  induction l generalizing i with
  | nil => simp
  | cons p rest ih =>
    simp only [index_of_path] at h
    split at h
    · simp only [Option.some.injEq] at h
      simp [← h]
    · rename_i hp
      cases hr : index_of_path rest t with
      | none => rw [hr] at h; simp at h
      | some j =>
        rw [hr] at h
        simp only [Option.map_some', Option.some.injEq] at h
        subst h
        intro a ha
        simp only [List.take_succ_cons, List.mem_cons] at ha
        rcases ha with rfl | ha
        · exact Bool.not_eq_true _ ▸ (by simpa using hp)
        · exact ih hr a ha

theorem index_of_path_decomp {l : List String} {t : String} {i : Nat}
    (h : index_of_path l t = some i) :
    l = l.take i ++ t :: l.drop (i + 1) := by
  induction l generalizing i with
  | nil => simp [index_of_path] at h
  | cons p rest ih =>
    simp only [index_of_path] at h
    split at h
    · rename_i hp
      simp only [Option.some.injEq] at h
      subst h
      have : p = t := paths_equal_iff.mp hp
      simp [this]
    · cases hr : index_of_path rest t with
      | none => rw [hr] at h; simp at h
      | some j =>
        rw [hr] at h
        simp only [Option.map_some', Option.some.injEq] at h
        subst h
        simp only [List.take_succ_cons, List.cons_append, List.drop_succ_cons,
          List.cons.injEq, true_and]
        exact ih hr

theorem index_of_path_append {A l : List String} {t : String}
    (hA : ∀ a ∈ A, paths_equal a t = false) :
    index_of_path (A ++ l) t = (index_of_path l t).map (· + A.length) := by
  induction A with
  | nil =>
    simp only [List.nil_append, List.length_nil]
    cases h : index_of_path l t <;> simp [h]
  | cons a A ih =>
    have ha : paths_equal a t = false := hA a (by simp)
    have hrest : ∀ x ∈ A, paths_equal x t = false := fun x hx => hA x (by simp [hx])
    simp only [List.cons_append, index_of_path, ha, Bool.false_eq_true, if_false]
    rw [show A.append l = A ++ l from rfl, ih hrest]
    cases index_of_path l t with
    | none => simp
    | some j =>
      simp only [Option.map_some', Option.some.injEq, List.length_cons]
      omega

theorem take_len_append {α : Type} (l₁ l₂ : List α) : (l₁ ++ l₂).take l₁.length = l₁ := by
  induction l₁ with
  | nil => simp
  | cons a l ih => simp [ih]

theorem drop_len_append {α : Type} (l₁ l₂ : List α) : (l₁ ++ l₂).drop l₁.length = l₂ := by
  induction l₁ with
  | nil => simp
  | cons a l ih => simp [ih]

/-- Closed form of `_replace_prefix_in_path` for a non-`None` old prefix: the
`assert` never fails on POSIX (the first and last expected directory
coincide) and the result deletes exactly the contiguous range found. -/
theorem replace_prefix_eq (E : String) (new_pfx : Option String) (P : List String) :
    _replace_prefix_in_path (some E) new_pfx P =
      some (match index_of_path P (E ++ "/" ++ "bin") with
            | none => _insert_dirs_at new_pfx 0 P
            | some i => _insert_dirs_at new_pfx i (P.take i ++ P.drop (i + 1))) := by
  unfold _replace_prefix_in_path
  cases h : index_of_path P (E ++ "/" ++ "bin") with
  | none => simp [_get_path_dirs2, h]
  | some i => simp [_get_path_dirs2, h]

-- ======== C1, C2, C3 ========

/-- C1: activating at level 0 prepends the environment's executable
directories (`_add_prefix_to_path`) and deactivating removes them again
(`_remove_prefix_from_path` applied to the result), restoring the original
search-path list exactly. -/
theorem add_remove_roundtrip (E : String) (P : List String) :
    _remove_prefix_from_path E (_add_prefix_to_path E P) = some P := by
  unfold _remove_prefix_from_path _add_prefix_to_path
  rw [replace_prefix_eq]
  have hx : _get_path_dirs2 E ++ P = (E ++ "/" ++ "bin") :: P := by
    simp [_get_path_dirs2]
  rw [hx, index_of_path_cons_self]
  simp [_insert_dirs_at]

/-- C2: `_replace_prefix_in_path(A, B, [A-dirs, Z, W])` puts B's directories
into the exact index range vacated by A's and keeps the trailing entries `Z`
and `W` in value, order and position. -/
theorem replace_block_positional (A B Z W : String) :
    _replace_prefix_in_path (some A) (some B) (_get_path_dirs2 A ++ [Z, W]) =
      some (_get_path_dirs2 B ++ [Z, W]) := by
  rw [replace_prefix_eq]
  have hx : _get_path_dirs2 A ++ [Z, W] = (A ++ "/" ++ "bin") :: [Z, W] := by
    simp [_get_path_dirs2]
  rw [hx, index_of_path_cons_self]
  simp [_insert_dirs_at, _get_path_dirs2]

/-- C3: removal inside `_replace_prefix_in_path`: when no entry equals the
environment's first expected executable directory, nothing is deleted and
index 0 is the insertion point; when the first expected entry is found at
index `i`, the last expected entry is also found (at index `i`, hence at or
after the first — the assert succeeds) and exactly the contiguous inclusive
range from `i` to that index is deleted, all other entries untouched. -/
theorem replace_removal_characterization (E : String) (new_pfx : Option String)
    (P : List String) :
    match index_of_path P ((_get_path_dirs2 E).headD "") with
    | none =>
        _replace_prefix_in_path (some E) new_pfx P = some (_insert_dirs_at new_pfx 0 P)
    | some i =>
        index_of_path P ((_get_path_dirs2 E).getLastD "") = some i ∧
        _replace_prefix_in_path (some E) new_pfx P =
          some (_insert_dirs_at new_pfx i (P.take i ++ P.drop (i + 1))) := by
  rw [replace_prefix_eq]
  have hhd : (_get_path_dirs2 E).headD "" = E ++ "/" ++ "bin" := by
    simp [_get_path_dirs2]
  have hlast : (_get_path_dirs2 E).getLastD "" = E ++ "/" ++ "bin" := by
    simp [_get_path_dirs2]
  rw [hhd, hlast]
  cases h : index_of_path P (E ++ "/" ++ "bin") with
  | none => simp
  | some i => exact ⟨rfl, rfl⟩

theorem take_append_of_len {α : Type} {l₁ : List α} {n : Nat} (h : l₁.length = n)
    (l₂ : List α) : (l₁ ++ l₂).take n = l₁ := by
  subst h; exact take_len_append _ _

theorem drop_append_of_len {α : Type} {l₁ : List α} {n : Nat} (h : l₁.length = n)
    (l₂ : List α) : (l₁ ++ l₂).drop n = l₂ := by
  subst h; exact drop_len_append _ _

theorem replace_self_total (E : String) (new_pfx : Option String) (P : List String) :
    ∃ Q, _replace_prefix_in_path (some E) new_pfx P = some Q :=
  ⟨_, replace_prefix_eq E new_pfx P⟩

/-- Replacing an environment over itself is idempotent on the path list. -/
theorem replace_self_idem {E : String} {P Q : List String}
    (h : _replace_prefix_in_path (some E) (some E) P = some Q) :
    _replace_prefix_in_path (some E) (some E) Q = some Q := by
  rw [replace_prefix_eq] at h
  simp only [Option.some.injEq] at h
  cases hio : index_of_path P (E ++ "/" ++ "bin") with
  | none =>
    simp only [hio] at h
    have hQ : Q = (E ++ "/" ++ "bin") :: P := by
      rw [← h]; simp [_insert_dirs_at, _get_path_dirs2]
    subst hQ
    rw [replace_prefix_eq, index_of_path_cons_self]
    simp [_insert_dirs_at, _get_path_dirs2]
  | some i =>
    simp only [hio] at h
    have hilt : i < P.length := index_of_path_some_lt hio
    have hA : ∀ a ∈ P.take i, paths_equal a (E ++ "/" ++ "bin") = false :=
      index_of_path_take hio
    have hlenA : (P.take i).length = i := by
      simp only [List.length_take]
      omega
    have h1 : (P.take i ++ P.drop (i + 1)).take i = P.take i :=
      take_append_of_len hlenA _
    have h2 : (P.take i ++ P.drop (i + 1)).drop i = P.drop (i + 1) :=
      drop_append_of_len hlenA _
    have hQ : Q = P.take i ++ (E ++ "/" ++ "bin") :: P.drop (i + 1) := by
      rw [← h]
      simp only [_insert_dirs_at, _get_path_dirs2, h1, h2]
      simp
    subst hQ
    rw [replace_prefix_eq]
    have hioQ :
        index_of_path (P.take i ++ (E ++ "/" ++ "bin") :: P.drop (i + 1))
          (E ++ "/" ++ "bin") = some i := by
      rw [index_of_path_append hA, index_of_path_cons_self]
      simp [hlenA]
    rw [hioQ]
    have hq1 :
        (P.take i ++ (E ++ "/" ++ "bin") :: P.drop (i + 1)).take i = P.take i :=
      take_append_of_len hlenA _
    have hq2 :
        (P.take i ++ (E ++ "/" ++ "bin") :: P.drop (i + 1)).drop (i + 1) =
          P.drop (i + 1) := by
      have hassoc :
          P.take i ++ (E ++ "/" ++ "bin") :: P.drop (i + 1) =
            (P.take i ++ [E ++ "/" ++ "bin"]) ++ P.drop (i + 1) := by simp
      have hlen : (P.take i ++ [E ++ "/" ++ "bin"]).length = i + 1 := by
        simp [hlenA]
      rw [hassoc]
      exact drop_append_of_len hlen _
    simp only [hq1, hq2, _insert_dirs_at, _get_path_dirs2, h1, h2]
    simp

-- ======== C5 ========

/-- C5: with level at least 1 and active prefix E (and a PATH present in the
snapshot), the reactivate path computation `_replace_prefix_in_path(E, E, .)`
is idempotent — applying it to its own output returns that output — and the
instruction set `build_reactivate` produces carries E's full
deactivate-script and activate-script lists (it is not a pure no-op). -/
theorem reactivate_idem_and_scripts (host : Host) (E : String) (L : Int) (ps : String)
    (hpfx : envGet host.environ "CONDA_PREFIX" = some E)
    (hE : E ≠ "")
    (hsh : getCondaShlvl host.environ = .ok L)
    (hL : 1 ≤ L)
    (hpath : envGet host.environ "PATH" = some ps) :
    (∀ P Q, _replace_prefix_in_path (some E) (some E) P = some Q →
        _replace_prefix_in_path (some E) (some E) Q = some Q)
    ∧ (match build_reactivate host with
       | .ok instr =>
            instr.deactivate_scripts = _get_deactivate_scripts host E ∧
            instr.activate_scripts = _get_activate_scripts host E
       | .error _ => False) := by
  constructor
  · intro P Q h
    exact replace_self_idem h
  · have hspl : _get_starting_path_list host = .ok (pySplitChar ':' ps) := by
      simp [_get_starting_path_list, hpath]
    obtain ⟨Q, hQ⟩ := replace_self_total E (some E) (pySplitChar ':' ps)
    have hcond : ¬ (E = "" ∨ L < 1) := by
      push_neg
      exact ⟨hE, by omega⟩
    unfold build_reactivate
    rw [hsh, hpfx]
    simp only [hcond, if_false, hspl, hQ]
    exact ⟨trivial, trivial⟩

theorem reactivate_idem_and_scripts_witness :
    _replace_prefix_in_path (some "/envs/a") (some "/envs/a")
        ["/envs/a/bin", "/usr/bin"] = some ["/envs/a/bin", "/usr/bin"]
    ∧ (match build_reactivate hostLvl1 with
       | .ok instr =>
            instr.deactivate_scripts = _get_deactivate_scripts hostLvl1 "/envs/a" ∧
            instr.activate_scripts = _get_activate_scripts hostLvl1 "/envs/a"
       | .error _ => False) := by
  have h := reactivate_idem_and_scripts hostLvl1 "/envs/a" 1 "/envs/a/bin:/usr/bin"
      (by decide) (by decide) (by decide) (by decide) (by decide)
  exact ⟨h.1 ["/envs/a/bin", "/usr/bin"] ["/envs/a/bin", "/usr/bin"] (by decide), h.2⟩

-- ======== C4 and C10 ========

theorem pyStrip_of_all_space {s : String} (h : s.data.all isPySpace = true) :
    pyStrip s = "" := by
  unfold pyStrip
  have h1 : s.data.dropWhile isPySpace = [] :=
    List.dropWhile_eq_nil_iff.mpr (by simpa using h)
  rw [h1]
  rfl

/-- C4: `build_deactivate` returns the empty instruction set (no unset, set or
export variables and no scripts) whenever `CONDA_SHLVL` is absent, blank, or
the string `0`. -/
theorem deactivate_level0_empty (host : Host)
    (h : envGet host.environ "CONDA_SHLVL" = none
       ∨ (∃ s, envGet host.environ "CONDA_SHLVL" = some s ∧ pyStrip s = "")
       ∨ envGet host.environ "CONDA_SHLVL" = some "0") :
    build_deactivate host = .ok emptyInstructionSet := by
  have h0 : getCondaShlvl host.environ = .ok 0 := by
    rcases h with h | ⟨s, hs, hstrip⟩ | h
    · simp only [getCondaShlvl, h]
      decide
    · simp only [getCondaShlvl, hs, Option.getD_some, hstrip]
      decide
    · simp only [getCondaShlvl, h]
      decide
  unfold build_deactivate
  rw [h0]
  cases hp : envGet host.environ "CONDA_PREFIX" with
  | none => rfl
  | some ocp =>
    have hc : (ocp = "" ∨ (0 : Int) < 1) := Or.inr (by norm_num)
    simp only [hc, if_true, if_pos hc]

theorem deactivate_level0_empty_witness :
    build_deactivate hostNoShlvl = .ok emptyInstructionSet :=
  deactivate_level0_empty hostNoShlvl (Or.inl (by decide))

/-- C10: `build_deactivate` and `build_reactivate` return the empty
instruction set whenever `CONDA_PREFIX` is unset or empty, whatever the
(parsed) level; and an unset, empty, or whitespace-only `CONDA_SHLVL` is
read as level 0 rather than raising an error. -/
theorem noop_without_active_env :
    (∀ (host : Host) (L : Int),
        (envGet host.environ "CONDA_PREFIX" = none
          ∨ envGet host.environ "CONDA_PREFIX" = some "") →
        getCondaShlvl host.environ = .ok L →
        build_deactivate host = .ok emptyInstructionSet ∧
        build_reactivate host = .ok emptyInstructionSet)
    ∧ (∀ environ : List (String × String),
        envGet environ "CONDA_SHLVL" = none → getCondaShlvl environ = .ok 0)
    ∧ (∀ (environ : List (String × String)) (s : String),
        envGet environ "CONDA_SHLVL" = some s → s.data.all isPySpace = true →
        getCondaShlvl environ = .ok 0) := by
  refine ⟨?_, ?_, ?_⟩
  · intro host L hp hsh
    constructor
    · unfold build_deactivate
      rw [hsh]
      rcases hp with hp | hp
      · rw [hp]
      · simp [hp]
    · unfold build_reactivate
      rw [hsh]
      rcases hp with hp | hp
      · rw [hp]
      · simp [hp]
  · intro environ h
    simp only [getCondaShlvl, h]
    decide
  · intro environ s hs hsp
    simp only [getCondaShlvl, hs, Option.getD_some, pyStrip_of_all_space hsp]
    decide

theorem noop_without_active_env_witness :
    build_deactivate hostNoCondaPfx = .ok emptyInstructionSet
    ∧ build_reactivate hostNoCondaPfx = .ok emptyInstructionSet
    ∧ getCondaShlvl [("CONDA_SHLVL", "  ")] = .ok 0 := by
  have h := noop_without_active_env.1 hostNoCondaPfx 3 (Or.inl (by decide)) (by decide)
  exact ⟨h.1, h.2,
    noop_without_active_env.2.2 [("CONDA_SHLVL", "  ")] "  " (by decide) (by decide)⟩

-- ======== C6 ========

/-- C6: when the activation target resolves to the currently active prefix
and the level is positive, `build_activate` and `build_stack` return exactly
the instruction set `build_reactivate` returns: a refresh, not a push. -/
theorem activate_same_env_is_reactivate (host : Host) (target P : String) (L : Int)
    (hres : resolveTarget host target = .ok P)
    (hpfx : envGet host.environ "CONDA_PREFIX" = some P)
    (hsh : getCondaShlvl host.environ = .ok L)
    (hL : 0 < L) :
    build_activate host target = build_reactivate host ∧
    build_stack host target = build_reactivate host := by
  have key : ∀ st, _build_activate_stack host target st = build_reactivate host := by
    intro st
    unfold _build_activate_stack
    simp only [hres, hsh]
    rw [if_pos ⟨hpfx, hL⟩]
  exact ⟨key false, key true⟩

theorem activate_same_env_is_reactivate_witness :
    build_activate hostLvl1 "/envs/a" = build_reactivate hostLvl1 ∧
    build_stack hostLvl1 "/envs/a" = build_reactivate hostLvl1 :=
  activate_same_env_is_reactivate hostLvl1 "/envs/a" "/envs/a" 1
    (by decide) (by decide) (by decide) (by decide)

-- ======== C7 ========

theorem getCondaShlvl_not_enf (environ : List (String × String)) (p : String) :
    getCondaShlvl environ ≠ .error (.environmentLocationNotFound p) := by
  intro hc
  unfold getCondaShlvl at hc
  iterate 10 (all_goals try (first | split at hc | dsimp only at hc))
  all_goals cases hc

theorem gspl_not_enf (host : Host) (p : String) :
    _get_starting_path_list host ≠ .error (.environmentLocationNotFound p) := by
  intro hc
  unfold _get_starting_path_list at hc
  iterate 10 (all_goals try (first | split at hc | dsimp only at hc))
  all_goals cases hc

theorem build_reactivate_not_enf (host : Host) (p : String) :
    build_reactivate host ≠ .error (.environmentLocationNotFound p) := by
  intro hc
  unfold build_reactivate at hc
  iterate 30 (all_goals try (first | split at hc | dsimp only at hc))
  all_goals try cases hc
  all_goals first
    | exact getCondaShlvl_not_enf _ _ (by assumption)
    | exact gspl_not_enf _ _ (by assumption)

theorem build_deactivate_not_enf (host : Host) (p : String) :
    build_deactivate host ≠ .error (.environmentLocationNotFound p) := by
  intro hc
  unfold build_deactivate at hc
  iterate 40 (all_goals try (first | split at hc | dsimp only at hc))
  all_goals try cases hc
  all_goals first
    | exact getCondaShlvl_not_enf _ _ (by assumption)
    | exact gspl_not_enf _ _ (by assumption)

/-- C7 (counterexample): with a file system containing no `conda-meta`
marker anywhere, activating the reserved alias `root` still succeeds: the
resolved path (the root prefix) lacks its marker yet no
`EnvironmentNotFound` error is raised, so the claimed equivalence fails for
alias-resolved targets. -/
theorem marker_check_counterexample :
    hostNoMeta.isdir (posixJoin hostNoMeta.root_pfx "conda-meta") = false
    ∧ resolveTarget hostNoMeta "root" = .ok "/opt/conda"
    ∧ exceptIsOk (build_activate hostNoMeta "root") = true := by
  refine ⟨rfl, by decide, by decide⟩

/-- C7 (amended): activation targets containing a path separator fail with
`EnvironmentNotFound` if and only if the expanded path lacks its
`conda-meta` marker subdirectory, and on failure the error is the entire
result — no instruction set is produced.  Targets resolved through the
reserved aliases or by name lookup are not subject to the marker check. -/
theorem marker_check_pathlike (host : Host) (target : String) (stack : Bool)
    (hpl : (strContains target '/' || strContains target '\\') = true) :
    (host.isdir (posixJoin (host.expand target) "conda-meta") = false →
      _build_activate_stack host target stack =
        .error (.environmentLocationNotFound (host.expand target)))
    ∧ (host.isdir (posixJoin (host.expand target) "conda-meta") = true →
      ∀ p, _build_activate_stack host target stack ≠
        .error (.environmentLocationNotFound p)) := by
  constructor
  · intro hdir
    have hres : resolveTarget host target =
        .error (.environmentLocationNotFound (host.expand target)) := by
      unfold resolveTarget
      rw [if_pos hpl]
      simp [hdir]
    unfold _build_activate_stack
    simp [hres]
  · intro hdir p
    have hres : resolveTarget host target = .ok (host.expand target) := by
      unfold resolveTarget
      rw [if_pos hpl]
      simp [hdir]
    intro hc
    unfold _build_activate_stack at hc
    rw [hres] at hc
    iterate 40 (all_goals try (first | split at hc | dsimp only at hc))
    all_goals try cases hc
    all_goals try contradiction
    all_goals first
      | exact getCondaShlvl_not_enf _ _ (by assumption)
      | exact gspl_not_enf _ _ (by assumption)
      | exact build_reactivate_not_enf _ _ hc
      | exact build_deactivate_not_enf _ _ hc

theorem marker_check_pathlike_witness :
    _build_activate_stack hostNoMeta "/envs/x" false =
      .error (.environmentLocationNotFound "/envs/x") :=
  (marker_check_pathlike hostNoMeta "/envs/x" false (by decide)).1 (by decide)

-- ======== C8 ========

/-- C8: `_yield_commands` renders, in order: all teardown scripts, the unset
commands sorted ascending by name, the local-set commands sorted, the export
commands sorted, then all setup scripts — and the rendered sequence is
independent of the insertion order of the variable collections. -/
theorem yield_commands_fixed_order (t : ShellTemplates) (d d2 : InstructionSet)
    (hd : d2.deactivate_scripts = d.deactivate_scripts)
    (ha : d2.activate_scripts = d.activate_scripts)
    (hu : d2.unset_vars.Perm d.unset_vars)
    (hs : d2.set_vars.Perm d.set_vars)
    (he : d2.export_vars.Perm d.export_vars) :
    yieldCommands t d2 = yieldCommands t d
    ∧ ∃ u s e,
        u.Perm d.unset_vars ∧ List.Sorted (· ≤ ·) u
        ∧ s.Perm d.set_vars ∧ List.Sorted pairLe s
        ∧ e.Perm d.export_vars ∧ List.Sorted pairLe e
        ∧ yieldCommands t d =
            d.deactivate_scripts.map t.run_script_tmpl
            ++ u.map t.unset_var_tmpl
            ++ s.map (fun kv => t.set_var_tmpl kv.1 kv.2)
            ++ e.map (fun kv => t.export_var_tmpl kv.1 kv.2)
            ++ d.activate_scripts.map t.run_script_tmpl := by
  have sortEq : ∀ l1 l2 : List String, l1.Perm l2 →
      sortedStrings l1 = sortedStrings l2 := by
    intro l1 l2 hp
    exact List.eq_of_perm_of_sorted
      ((List.perm_insertionSort _ l1).trans (hp.trans (List.perm_insertionSort _ l2).symm))
      (List.sorted_insertionSort _ l1) (List.sorted_insertionSort _ l2)
  have sortEqP : ∀ l1 l2 : List (String × String), l1.Perm l2 →
      sortedPairs l1 = sortedPairs l2 := by
    intro l1 l2 hp
    exact List.eq_of_perm_of_sorted
      ((List.perm_insertionSort _ l1).trans (hp.trans (List.perm_insertionSort _ l2).symm))
      (List.sorted_insertionSort _ l1) (List.sorted_insertionSort _ l2)
  constructor
  · unfold yieldCommands
    rw [hd, ha, sortEq _ _ hu, sortEqP _ _ hs, sortEqP _ _ he]
  · exact ⟨sortedStrings d.unset_vars, sortedPairs d.set_vars, sortedPairs d.export_vars,
      List.perm_insertionSort _ _, List.sorted_insertionSort _ _,
      List.perm_insertionSort _ _, List.sorted_insertionSort _ _,
      List.perm_insertionSort _ _, List.sorted_insertionSort _ _, rfl⟩

theorem yield_commands_fixed_order_witness :
    yieldCommands tmplPosix
      { unset_vars := ["B", "A"], set_vars := [("q", "1"), ("p", "2")],
        export_vars := [("Y", "y"), ("X", "x")],
        deactivate_scripts := ["d1"], activate_scripts := ["a1"] }
      = yieldCommands tmplPosix
      { unset_vars := ["A", "B"], set_vars := [("p", "2"), ("q", "1")],
        export_vars := [("X", "x"), ("Y", "y")],
        deactivate_scripts := ["d1"], activate_scripts := ["a1"] } :=
  (yield_commands_fixed_order tmplPosix
      { unset_vars := ["A", "B"], set_vars := [("p", "2"), ("q", "1")],
        export_vars := [("X", "x"), ("Y", "y")],
        deactivate_scripts := ["d1"], activate_scripts := ["a1"] }
      { unset_vars := ["B", "A"], set_vars := [("q", "1"), ("p", "2")],
        export_vars := [("Y", "y"), ("X", "x")],
        deactivate_scripts := ["d1"], activate_scripts := ["a1"] }
      rfl rfl (by decide) (by decide) (by decide)).1

-- ======== C9 ========

/-- C9: for the activate command, filtering silently discards positional
arguments that are empty or equal to the command word `activate`; when no
positional argument remains the target defaults to `base`, so
`activate activate` and `activate` of an empty string both resolve to the
base environment without an argument error. -/
theorem parse_activate_default_base :
    (∀ rest : List String, (∀ a ∈ rest, a = "" ∨ a = "activate") →
        parseAndSetArgs (some ("activate" :: rest)) = .ok (.activateCmd false "base"))
    ∧ parseAndSetArgs (some ["activate", "activate"]) = .ok (.activateCmd false "base")
    ∧ parseAndSetArgs (some ["activate", ""]) = .ok (.activateCmd false "base") := by
  refine ⟨?_, by decide, by decide⟩
  intro rest hrest
  have hnh : rest.filter (fun a => !(help_flags.contains a)) = rest := by
    rw [List.filter_eq_self]
    intro a ha
    rcases hrest a ha with rfl | rfl <;> decide
  have hrem : rest.filter (fun a => a != "" && a != "activate") = [] := by
    rw [List.filter_eq_nil_iff]
    intro a ha
    rcases hrest a ha with rfl | rfl <;> decide
  unfold parseAndSetArgs
  dsimp only
  rw [hnh, hrem]
  simp

theorem parse_activate_default_base_witness :
    parseAndSetArgs (some ["activate", "", "activate", ""]) =
      .ok (.activateCmd false "base") :=
  parse_activate_default_base.1 ["", "activate", ""] (by decide)
